import Mathlib

/-!
Shallow embedding of the download gatekeeper and telemetry pipeline of the
VSCode Ventures marketing sites: the download token issuer, the bot-score,
environment and honeypot gates, the client-persisted rate limiter, the
download state machine, and the multi-sink analytics dispatcher, translated
from the browser source (`VentureAnalytics` and `DownloadManager`).
-/

/-- Lowercase hexadecimal digit, as produced by JSON `\u00XX` escapes and by
`byte.toString(16)` in `generateNonce`. -/
def hexDigit (n : Nat) : Char :=
  ("0123456789abcdef").data.getD n '0'

/-- Escape of one character exactly as `JSON.stringify` escapes characters
inside a JSON string: quote, backslash, the named control escapes, and
`\u00XX` for the remaining control characters; every other character is kept
verbatim. -/
def jsonEscapeChar (c : Char) : List Char :=
  if c = '"' then ['\\', '"']
  else if c = '\\' then ['\\', '\\']
  else if c = '\x08' then ['\\', 'b']
  else if c = '\x09' then ['\\', 't']
  else if c = '\x0a' then ['\\', 'n']
  else if c = '\x0c' then ['\\', 'f']
  else if c = '\x0d' then ['\\', 'r']
  else if c.toNat < 32 then
    ['\\', 'u', '0', '0', hexDigit (c.toNat / 16), hexDigit (c.toNat % 16)]
  else [c]

/-- JSON string-body escaping of a whole string (`JSON.stringify` without the
surrounding quotes). -/
def jsonEscape (s : String) : List Char :=
  s.data.flatMap jsonEscapeChar

/-- Serialization of the token record built in
`DownloadManager.generateDownloadToken`:
`JSON.stringify({venture, timestamp, userAgent, sessionId, nonce})`, with the
fields in the object-literal order of the source. -/
def tokenChars (venture : String) (ts : Nat) (ua sid nonce : String) : List Char :=
  ("\x7b\"venture\":\"").data ++ jsonEscape venture ++
    ("\",\"timestamp\":").data ++ (toString ts).data ++
    (",\"userAgent\":\"").data ++ jsonEscape ua ++
    ("\",\"sessionId\":\"").data ++ jsonEscape sid ++
    ("\",\"nonce\":\"").data ++ jsonEscape nonce ++ ("\"\x7d").data

/-- The base64 alphabet used by `btoa`. -/
def b64Alphabet : List Char :=
  ("ABCDEFGHIJKLMNOPQRSTUVWXYZabcdefghijklmnopqrstuvwxyz0123456789+/").data

/-- One base64 alphabet character. -/
def b64Char (n : Nat) : Char := b64Alphabet.getD n 'A'

/-- `btoa` on a byte sequence: standard base64, three input bytes per four
output characters, `=`-padded. The browser `btoa` reads the string's code
units as bytes (and throws above 255, which never happens for the ASCII/Latin-1
inputs this page produces); `% 256` simply fixes the byte domain. -/
def b64encode : List Nat → List Char
  | a :: b :: c :: rest =>
      b64Char (a % 256 / 4) ::
      b64Char (a % 256 % 4 * 16 + b % 256 / 16) ::
      b64Char (b % 256 % 16 * 4 + c % 256 / 64) ::
      b64Char (c % 256 % 64) :: b64encode rest
  | [a, b] =>
      [b64Char (a % 256 / 4), b64Char (a % 256 % 4 * 16 + b % 256 / 16),
       b64Char (b % 256 % 16 * 4), '=']
  | [a] =>
      [b64Char (a % 256 / 4), b64Char (a % 256 % 4 * 16), '=', '=']
  | [] => []

/-- Characters kept by the source's `.replace(/[+\/=]/g, '')`. -/
def b64Keep (c : Char) : Bool :=
  !(c == '+' || c == '/' || c == '=')

/-- `btoa(str).replace(/[+\/=]/g, '').substring(0, 32)` on the code units of a
character sequence. -/
def tokenOf (l : List Char) : List Char :=
  ((b64encode (l.map Char.toNat)).filter b64Keep).take 32

/-- `DownloadManager.generateDownloadToken`: serialize the token record,
base64-encode it, strip `+`, `/`, `=`, and keep the first 32 characters. The
random nonce (`generateNonce`) and the clock are passed in as arguments. -/
def generateDownloadToken (venture : String) (ts : Nat) (ua sid nonce : String) :
    List Char :=
  tokenOf (tokenChars venture ts ua sid nonce)

/-- `DownloadManager.generateNonce`: sixteen random bytes rendered as
two-digit lowercase hex and joined. -/
def generateNonce (bytes : List Nat) : String :=
  String.mk (bytes.flatMap fun b => [hexDigit (b % 256 / 16), hexDigit (b % 256 % 16)])

/-! ## Download manager and analytics dispatcher -/

/-- Visible state of the download controls driven by
`DownloadManager.updateDownloadUI`. -/
inductive UIState
  | idle
  | preparing
  | success
  | error
deriving DecidableEq

/-- The persisted rate-limit record `{count, windowStart}` stored under the
`download_rate_limit` key. -/
structure StoredWindow where
  count : Nat
  windowStart : Nat
deriving DecidableEq

/-- `this.rateLimitWindow` (milliseconds). -/
def rateLimitWindowMs : Nat := 60000

/-- `this.maxDownloadsPerWindow`. -/
def maxDownloadsPerWindow : Nat := 3

/-- Synchronous environment signals read by the gates: presence of
`window.fetch`, `window.Promise`, `crypto`, `localStorage`, and the value of
the `#honeypot` field when that element exists. -/
structure EnvSignals where
  fetchAvail : Bool
  promiseAvail : Bool
  cryptoAvail : Bool
  localStorageAvail : Bool
  honeypotValue : Option String
deriving DecidableEq

/-- Which check of `passesSecurityChecks` rejected the attempt; each reason
corresponds to one of the sequential `console.warn` branches of the source. -/
inductive BlockReason
  | highBotScore
  | unsupportedEnv
  | honeypotTripped
deriving DecidableEq

/-- `DownloadManager.passesSecurityChecks`, with the source's check order:
bot score first (`this.botScore > 50`), then the browser environment
(`!window.fetch || !window.Promise`), then the honeypot field; `none` means
every check passed. -/
def passesSecurityChecks (botScore : Nat) (env : EnvSignals) : Option BlockReason :=
  if 50 < botScore then some BlockReason.highBotScore
  else if !env.fetchAvail || !env.promiseAvail then some BlockReason.unsupportedEnv
  else
    match env.honeypotValue with
    | some v => if v = "" then none else some BlockReason.honeypotTripped
    | none => none

/-- `DownloadManager.checkRateLimit`: compares the in-memory counter against
the per-window maximum; it does not read the clock or the persisted window. -/
def checkRateLimit (rateLimitCount : Nat) : Bool :=
  rateLimitCount < maxDownloadsPerWindow

/-- `DownloadManager.initRateLimiting`: runs once per page load. With no
persisted record the `now - undefined` comparison is false, so the counter
loads as `0` and nothing is written; with a persisted record the window is
reset (count 0, windowStart now, persisted) only when `now - windowStart`
exceeds the window duration, otherwise the stored count is adopted. Returns
the in-memory counter and the persisted record. -/
def initRateLimiting (stored : Option StoredWindow) (now : Nat) :
    Nat × Option StoredWindow :=
  match stored with
  | none => (0, none)
  | some w =>
    if rateLimitWindowMs < now - w.windowStart then
      (0, some ⟨0, now⟩)
    else (w.count, some w)

/-- `DownloadManager.updateRateLimit`: increments the in-memory counter and
persists `{count: newCount, windowStart: Date.now()}`. -/
def updateRateLimit (rateLimitCount now : Nat) : Nat × StoredWindow :=
  (rateLimitCount + 1, ⟨rateLimitCount + 1, now⟩)

/-- One telemetry event, reduced to its distinguishing fields: the `event`
kind and the most specific label the source attaches (`source` for download
events, `action` for engagement, `context` for errors, the security event
name for `security_event`). -/
structure TelemetryEvent where
  kind : String
  label : String
deriving DecidableEq

/-- Behavior of the configured sinks during one dispatch: which third-party
hooks are installed, which calls throw, whether the `/api/analytics` `fetch`
rejects, and whether `navigator.sendBeacon` exists. -/
structure SinkBehavior where
  cloudflareHook : Bool
  cloudflareThrows : Bool
  gtagHook : Bool
  gtagThrows : Bool
  fetchRejects : Bool
  beaconAvail : Bool
deriving DecidableEq

/-- One delivery target. -/
inductive SinkId
  | cloudflare
  | googleAnalytics
  | customFetch
  | customBeacon
deriving DecidableEq

/-- One attempted delivery of one event to one sink: the target, the request
path (empty for the in-page third-party hooks), and whether the attempt
succeeded. -/
structure Delivery where
  sink : SinkId
  path : String
  ok : Bool
deriving DecidableEq

/-- Path of the first-party analytics endpoint, shared by the `fetch` POST and
the beacon fallback. -/
def apiAnalyticsPath : String := "/api/analytics"

/-- `VentureAnalytics.sendToCloudflare`: calls the hook only when
`window.cloudflare.analytics` is present; the external call may throw. Returns
the deliveries attempted and whether the call threw. -/
def sendToCloudflare (b : SinkBehavior) : List Delivery × Bool :=
  if b.cloudflareHook then
    if b.cloudflareThrows then ([⟨SinkId.cloudflare, "", false⟩], true)
    else ([⟨SinkId.cloudflare, "", true⟩], false)
  else ([], false)

/-- `VentureAnalytics.sendToGoogleAnalytics`: calls `gtag` only when it is
installed; the external call may throw. -/
def sendToGoogleAnalytics (b : SinkBehavior) : List Delivery × Bool :=
  if b.gtagHook then
    if b.gtagThrows then ([⟨SinkId.googleAnalytics, "", false⟩], true)
    else ([⟨SinkId.googleAnalytics, "", true⟩], false)
  else ([], false)

/-- `VentureAnalytics.sendToCustomEndpoint`: POST to `/api/analytics` inside
its own `try`; when the `fetch` rejects, fall back to `navigator.sendBeacon`
on the same path when available. Never throws to its caller. -/
def sendToCustomEndpoint (b : SinkBehavior) : List Delivery :=
  if b.fetchRejects then
    if b.beaconAvail then
      [⟨SinkId.customFetch, apiAnalyticsPath, false⟩,
       ⟨SinkId.customBeacon, apiAnalyticsPath, true⟩]
    else [⟨SinkId.customFetch, apiAnalyticsPath, false⟩]
  else [⟨SinkId.customFetch, apiAnalyticsPath, true⟩]

/-- `VentureAnalytics.sendAnalytics`: one `try` block awaits the Cloudflare
sink, then calls the Google Analytics sink when `window.gtag` exists, then
awaits the custom endpoint; the single `catch` logs a warning. Returns the
deliveries attempted before any throw and whether the catch fired; the caller
never sees an exception. -/
def sendAnalytics (b : SinkBehavior) : List Delivery × Bool :=
  let cf := sendToCloudflare b
  if cf.2 then (cf.1, true)
  else
    let ga := if b.gtagHook then sendToGoogleAnalytics b else ([], false)
    if ga.2 then (cf.1 ++ ga.1, true)
    else (cf.1 ++ ga.1 ++ sendToCustomEndpoint b, false)

/-- Venture configuration handed to the `DownloadManager` constructor. -/
structure VentureConfig where
  name : String
  version : String
  downloadUrl : String
deriving DecidableEq

/-- State of one `DownloadManager` (with its `VentureAnalytics` instance):
the once-computed bot score, the in-memory rate-limit counter, the persisted
window, the visible control state with its transition history, the telemetry
events emitted so far (with their per-sink delivery outcomes), the advisory
messages shown by `showMessage` (title and style), the download tokens issued,
and the conversion count updated by `updateConversionMetrics`. -/
structure MState where
  botScore : Nat
  rateLimitCount : Nat
  storage : Option StoredWindow
  uiState : UIState
  uiHistory : List UIState
  events : List (TelemetryEvent × List Delivery)
  advisories : List (String × String)
  tokens : List (List Char)
  conversions : Nat
deriving DecidableEq

/-- Per-attempt context: the clock, the identity fields serialized into the
token, the environment snapshot, the sink behavior for this dispatch, and the
outcome of the verification `HEAD` request (`response.ok`). -/
structure AttemptCtx where
  now : Nat
  userAgent : String
  sessionId : String
  nonce : String
  env : EnvSignals
  sinks : SinkBehavior
  headOk : Bool
deriving DecidableEq

/-- Dispatch one event through `sendAnalytics`, recording the event and its
per-sink delivery outcomes. -/
def emitEvent (st : MState) (b : SinkBehavior) (ev : TelemetryEvent) : MState :=
  { st with events := st.events ++ [(ev, (sendAnalytics b).1)] }

/-- The `download_started` event built by `VentureAnalytics.trackDownload`. -/
def downloadStartedEvent (source : String) : TelemetryEvent :=
  ⟨"download_started", source⟩

/-- An `engagement` event built by `VentureAnalytics.trackEngagement`. -/
def engagementEvent (action : String) : TelemetryEvent :=
  ⟨"engagement", action⟩

/-- An `error` event built by `VentureAnalytics.trackError`. -/
def errorEvent (context : String) : TelemetryEvent :=
  ⟨"error", context⟩

/-- The `security_event` event built by
`DownloadManager.reportSecurityEvent`. -/
def securityEvent (eventName : String) : TelemetryEvent :=
  ⟨"security_event", eventName⟩

/-- `VentureAnalytics.updateConversionMetrics`: bumps the conversion count. -/
def updateConversionMetrics (st : MState) : MState :=
  { st with conversions := st.conversions + 1 }

/-- `VentureAnalytics.trackDownload`: emit `download_started`, then update the
conversion metrics. -/
def trackDownload (st : MState) (b : SinkBehavior) (source : String) : MState :=
  updateConversionMetrics (emitEvent st b (downloadStartedEvent source))

/-- `DownloadManager.reportSecurityEvent`: wraps the security event and routes
it through `sendAnalytics`. Defined by the source but (as the theorems below
record) never invoked by any gate path. -/
def reportSecurityEvent (st : MState) (b : SinkBehavior) (eventName : String) :
    MState :=
  emitEvent st b (securityEvent eventName)

/-- Advisory shown by `showSecurityBlockMessage` (title and style). -/
def securityBlockAdvisory : String × String :=
  ("Download Temporarily Unavailable", "warning")

/-- Advisory shown by `showRateLimitMessage` (title and style). -/
def rateLimitAdvisory : String × String :=
  ("Download Limit Reached", "info")

/-- `DownloadManager.showMessage`: appends a user-visible advisory. -/
def showMessage (st : MState) (a : String × String) : MState :=
  { st with advisories := st.advisories ++ [a] }

/-- `DownloadManager.updateDownloadUI`: moves every bound control to the given
state; the transition is also appended to the history. -/
def updateDownloadUI (st : MState) (u : UIState) : MState :=
  { st with uiState := u, uiHistory := st.uiHistory ++ [u] }

/-- `DownloadManager.verifyDownloadStart` (the tail of `startSecureDownload`):
a `HEAD` probe of the secure URL; on `response.ok` it emits the
`download_verified` engagement event, otherwise it emits an `error` event with
context `download_verification` and throws. -/
def verifyDownloadStart (st : MState) (o : AttemptCtx) :
    Except (String × MState) MState :=
  if o.headOk then
    Except.ok (emitEvent st o.sinks (engagementEvent "download_verified"))
  else
    Except.error
      ("Download verification failed",
        emitEvent st o.sinks (errorEvent "download_verification"))

/-- Body of the `try` block of `DownloadManager.initiateDownload`, in source
order: security checks, rate-limit check, UI `preparing`, token generation,
`trackDownload`, secure download with verification, `updateRateLimit`, UI
`success`; a verification failure escapes as an exception carrying the state
mutated so far. -/
def initiateDownloadBody (cfg : VentureConfig) (st : MState) (source : String)
    (o : AttemptCtx) : Except (String × MState) (Bool × MState) :=
  match passesSecurityChecks st.botScore o.env with
  | some _ => Except.ok (false, showMessage st securityBlockAdvisory)
  | none =>
    if !checkRateLimit st.rateLimitCount then
      Except.ok (false, showMessage st rateLimitAdvisory)
    else
      let st1 := updateDownloadUI st UIState.preparing
      let tok := generateDownloadToken cfg.name o.now o.userAgent o.sessionId o.nonce
      let st2 := { st1 with tokens := st1.tokens ++ [tok] }
      let st3 := trackDownload st2 o.sinks source
      match verifyDownloadStart st3 o with
      | Except.error e => Except.error e
      | Except.ok st4 =>
        let rl := updateRateLimit st4.rateLimitCount o.now
        let st5 := { st4 with rateLimitCount := rl.1, storage := some rl.2 }
        Except.ok (true, updateDownloadUI st5 UIState.success)

/-- `DownloadManager.initiateDownload`: the `try` body above with its `catch`,
which tracks an `error` event with context `download_manager`, moves the UI to
`error`, and returns `false`; the caller never sees an exception. -/
def initiateDownload (cfg : VentureConfig) (st : MState) (source : String)
    (o : AttemptCtx) : Bool × MState :=
  match initiateDownloadBody cfg st source o with
  | Except.ok r => r
  | Except.error e =>
    (false, updateDownloadUI (emitEvent e.2 o.sinks (errorEvent "download_manager"))
      UIState.error)

/-- Constructor plus `init` of `DownloadManager`: the bot score is computed
once, `initRateLimiting` loads (and possibly resets) the persisted window, and
everything else starts empty with the controls idle. -/
def newManagerState (botScore : Nat) (stored : Option StoredWindow) (now : Nat) :
    MState :=
  let rl := initRateLimiting stored now
  { botScore := botScore
    rateLimitCount := rl.1
    storage := rl.2
    uiState := UIState.idle
    uiHistory := []
    events := []
    advisories := []
    tokens := []
    conversions := 0 }

/-- The standalone `validateDownloadEnvironment` utility (exported on
`window`, invoked by nothing in the repository). -/
def validateDownloadEnvironment (env : EnvSignals) : Bool :=
  env.fetchAvail && env.promiseAvail && env.cryptoAvail && env.localStorageAvail

/-- Run a sequence of download attempts (source tag and context each),
threading the manager state; returns the per-attempt results and the final
state. -/
def runAttempts (cfg : VentureConfig) :
    MState → List (String × AttemptCtx) → List Bool × MState
  | st, [] => ([], st)
  | st, (src, o) :: rest =>
    let r := initiateDownload cfg st src o
    let tail := runAttempts cfg r.2 rest
    (r.1 :: tail.1, tail.2)

/-- Every manager state reached while running a sequence of attempts
(including the initial and final ones). -/
def runStates (cfg : VentureConfig) :
    MState → List (String × AttemptCtx) → List MState
  | st, [] => [st]
  | st, (src, o) :: rest =>
    st :: runStates cfg (initiateDownload cfg st src o).2 rest

/-- A per-attempt context whose gates other than the bot score all pass: the
environment supports `fetch` and `Promise`, the honeypot field is absent or
empty, and the verification probe succeeds. -/
def admissibleCtx (o : AttemptCtx) : Bool :=
  o.env.fetchAvail && o.env.promiseAvail &&
    (match o.env.honeypotValue with
     | none => true
     | some v => v == "") && o.headOk

/-- Concrete venture configuration used by the concrete runs below. -/
def cfgAW : VentureConfig :=
  ⟨"Alpha Workspace", "1.0.0", "https://downloads.example.com/alpha"⟩

/-- A fully supported environment with no honeypot element. -/
def goodEnv : EnvSignals := ⟨true, true, true, true, none⟩

/-- An environment missing `window.fetch` (everything else present). -/
def noFetchEnv : EnvSignals := ⟨false, true, true, true, none⟩

/-- Healthy sinks: no third-party hooks installed, first-party `fetch`
succeeds, beacon available. -/
def goodSinks : SinkBehavior := ⟨false, false, false, false, false, true⟩

/-- Sinks in which the Cloudflare hook is installed and throws while the
Google Analytics hook is installed and the first-party endpoint is healthy. -/
def throwingCloudflareSinks : SinkBehavior := ⟨true, true, true, false, false, true⟩

/-- Sinks in which the first-party `fetch` always rejects and the beacon
fallback is available. -/
def rejectingEndpointSinks : SinkBehavior := ⟨false, false, false, false, true, true⟩

/-- A benign attempt context at the given clock value. -/
def goodCtx (now : Nat) : AttemptCtx :=
  ⟨now, "Mozilla/5.0", "session_1736500000000_abc123def", "a1b2c3d4", goodEnv,
    goodSinks, true⟩

/-- The spec's scenario: clicks on `primary_cta` at seconds 1, 5 and 10 (all
admitted), second 15 (rejected) and second 61 (still the same page session). -/
def scenarioAttempts : List (String × AttemptCtx) :=
  [("primary_cta", goodCtx 1000), ("primary_cta", goodCtx 5000),
   ("primary_cta", goodCtx 10000), ("primary_cta", goodCtx 15000),
   ("primary_cta", goodCtx 61000)]

/-! ## Theorems -/

/-- Base64 encoding splits across an append whenever the left part's length is
a multiple of three. -/
theorem b64encode_append (p r : List Nat) (h : p.length % 3 = 0) :
    b64encode (p ++ r) = b64encode p ++ b64encode r := by
  match p with
  | [] => simp [b64encode]
  | [a] => simp at h
  | [a, b] => simp at h
  | a :: b :: c :: p2 =>
    have h2 : p2.length % 3 = 0 := by
      simp only [List.length_cons] at h
      omega
    have ih := b64encode_append p2 r h2
    simp [b64encode, ih]

/-- The cleaned, truncated token of any character sequence that begins with the
24 characters of the prefix of the record serialized for venture
`Alpha Workspace` is one fixed 32-character string: the truncation consumes
only the constant prefix of the serialization. -/
theorem tokenOf_alphaWorkspace (rest : List Char) :
    tokenOf (("\x7b\"venture\":\"Alpha Worksp").data ++ rest) =
      ("eyJ2ZW50dXJlIjoiQWxwaGEgV29ya3Nw").data := by
  have hsplit :
      b64encode ((("\x7b\"venture\":\"Alpha Worksp").data ++ rest).map Char.toNat) =
        b64encode ((("\x7b\"venture\":\"Alpha Worksp").data).map Char.toNat) ++
          b64encode (rest.map Char.toNat) := by
    rw [List.map_append]
    exact b64encode_append _ _ (by decide)
  have hpre :
      (b64encode ((("\x7b\"venture\":\"Alpha Worksp").data).map Char.toNat)).filter
          b64Keep =
        ("eyJ2ZW50dXJlIjoiQWxwaGEgV29ya3Nw").data := by decide
  have hlen : (("eyJ2ZW50dXJlIjoiQWxwaGEgV29ya3Nw").data).length = 32 := by decide
  rw [tokenOf, hsplit, List.filter_append, hpre, ← hlen, List.take_left]

/-- C1 (amended): for a fixed venture (shown here for `Alpha Workspace`), the
issued download token is one constant 32-character string for every timestamp,
user agent, session id and nonce: the 32-character truncation of the stripped
base64 output consumes only the constant `venture` prefix of the serialized
record, so the timestamp and nonce components never reach the token. -/
theorem generateDownloadToken_constant (ts : Nat) (ua sid nonce : String) :
    generateDownloadToken ("Alpha Workspace") ts ua sid nonce =
      ("eyJ2ZW50dXJlIjoiQWxwaGEgV29ya3Nw").data := by
  have hesc : jsonEscape ("Alpha Workspace") = ("Alpha Workspace").data := by decide
  have hcat : (("\x7b\"venture\":\"").data ++ ("Alpha Workspace").data : List Char)
      = ("\x7b\"venture\":\"Alpha Worksp").data ++ ("ace").data := by decide
  rw [generateDownloadToken, tokenChars, hesc, hcat]
  simp only [List.append_assoc]
  exact tokenOf_alphaWorkspace _

/-- C1 (counterexample): two download tokens for the same session issued at
different times with different, independently generated nonces are equal as
strings, refuting the claim that they are never equal. -/
theorem generateDownloadToken_collision :
    generateDownloadToken ("Alpha Workspace") 1736500000000 ("Mozilla/5.0")
        ("session_1736500000000_abc") ("00aabbccddeeff001122334455667788") =
      generateDownloadToken ("Alpha Workspace") 1736500042000 ("Mozilla/5.0")
        ("session_1736500000000_abc") ("ffeeddccbbaa99887766554433221100") ∧
    (1736500000000 : Nat) ≠ 1736500042000 ∧
    ("00aabbccddeeff001122334455667788" : String) ≠
      ("ffeeddccbbaa99887766554433221100") := by
  refine ⟨by decide, by decide, by decide⟩

/-- When the bot score is at most 50, `fetch` and `Promise` are present and
the honeypot is absent or empty, every security check passes. -/
theorem passes_of_admissible (botScore : Nat) (env : EnvSignals)
    (hs : botScore ≤ 50) (hf : env.fetchAvail = true) (hp : env.promiseAvail = true)
    (hh : env.honeypotValue = none ∨ env.honeypotValue = some "") :
    passesSecurityChecks botScore env = none := by
  have hlt : ¬ (50 < botScore) := by omega
  rcases hh with h | h <;> simp [passesSecurityChecks, hf, hp, h, hlt]

/-- Unpacking of `admissibleCtx`. -/
theorem admissible_fields (o : AttemptCtx) (ha : admissibleCtx o = true) :
    o.env.fetchAvail = true ∧ o.env.promiseAvail = true ∧
      (o.env.honeypotValue = none ∨ o.env.honeypotValue = some "") ∧
      o.headOk = true := by
  unfold admissibleCtx at ha
  rcases hh : o.env.honeypotValue with _ | v
  · simp only [hh, Bool.and_eq_true] at ha
    exact ⟨ha.1.1.1, ha.1.1.2, Or.inl rfl, ha.2⟩
  · simp only [hh, Bool.and_eq_true, beq_iff_eq] at ha
    exact ⟨ha.1.1.1, ha.1.1.2, Or.inr (by rw [ha.1.2]), ha.2⟩

/-- Effect of one attempt whose gates other than the rate limit all pass: the
attempt is admitted exactly when the in-memory counter is below the maximum;
an admitted attempt increments the counter, persists `{count, windowStart:
now}` and ends in the `success` state, while a rejected attempt only appends
the rate-limit advisory. -/
theorem initiateDownload_step (cfg : VentureConfig) (st : MState) (source : String)
    (o : AttemptCtx) (hs : st.botScore ≤ 50) (ha : admissibleCtx o = true) :
    (initiateDownload cfg st source o).1 = checkRateLimit st.rateLimitCount
    ∧ (initiateDownload cfg st source o).2.botScore = st.botScore
    ∧ (initiateDownload cfg st source o).2.rateLimitCount =
        (if st.rateLimitCount < 3 then st.rateLimitCount + 1 else st.rateLimitCount)
    ∧ (initiateDownload cfg st source o).2.advisories =
        (if st.rateLimitCount < 3 then st.advisories
         else st.advisories ++ [rateLimitAdvisory])
    ∧ (initiateDownload cfg st source o).2.storage =
        (if st.rateLimitCount < 3 then some ⟨st.rateLimitCount + 1, o.now⟩
         else st.storage)
    ∧ (initiateDownload cfg st source o).2.uiState =
        (if st.rateLimitCount < 3 then UIState.success else st.uiState) := by
  obtain ⟨hf, hp, hh, hhead⟩ := admissible_fields o ha
  have hpass := passes_of_admissible st.botScore o.env hs hf hp hh
  by_cases hc : st.rateLimitCount < 3
  · simp [initiateDownload, initiateDownloadBody, hpass, checkRateLimit,
      maxDownloadsPerWindow, hc, verifyDownloadStart, hhead, updateDownloadUI,
      trackDownload, updateConversionMetrics, emitEvent, updateRateLimit]
  · simp [initiateDownload, initiateDownloadBody, hpass, checkRateLimit,
      maxDownloadsPerWindow, hc, showMessage]

/-- Running any sequence of attempts whose gates other than the rate limit all
pass, from a counter value at most 3: attempt `i` is admitted exactly when
`count + i < 3`, the final counter is `min (count + n) 3`, each rejected
attempt appends one rate-limit advisory, and the counter never exceeds 3 in
any reached state. -/
theorem runAttempts_rateLimit (cfg : VentureConfig) (os : List (String × AttemptCtx)) :
    ∀ st : MState, st.botScore ≤ 50 →
      (os.all fun p => admissibleCtx p.2) = true →
      st.rateLimitCount ≤ 3 →
      (runAttempts cfg st os).1 =
        (List.range os.length).map (fun i => decide (st.rateLimitCount + i < 3))
      ∧ (runAttempts cfg st os).2.rateLimitCount = min (st.rateLimitCount + os.length) 3
      ∧ (runAttempts cfg st os).2.advisories =
          st.advisories ++
            List.replicate (os.length - (3 - st.rateLimitCount)) rateLimitAdvisory
      ∧ ((runStates cfg st os).all fun s2 => decide (s2.rateLimitCount ≤ 3)) = true := by
  induction os with
  | nil =>
    intro st hs _ hc
    refine ⟨by simp [runAttempts], by simp [runAttempts]; omega,
      by simp [runAttempts], by simp [runStates, hc]⟩
  | cons p rest ih =>
    intro st hs hall hc
    obtain ⟨src, o⟩ := p
    have hall2 : admissibleCtx o = true ∧
        (rest.all fun q => admissibleCtx q.2) = true := by simpa using hall
    have step := initiateDownload_step cfg st src o hs hall2.1
    by_cases hlt : st.rateLimitCount < 3
    · simp only [if_pos hlt] at step
      have ih2 := ih (initiateDownload cfg st src o).2
        (by rw [step.2.1]; exact hs) hall2.2 (by rw [step.2.2.1]; omega)
      rw [step.2.2.1, step.2.2.2.1] at ih2
      refine ⟨?_, ?_, ?_, ?_⟩
      · simp only [runAttempts, List.length_cons, List.range_succ_eq_map,
          List.map_cons, List.map_map]
        refine List.cons_eq_cons.mpr ⟨?_, ?_⟩
        · rw [step.1]; simp [checkRateLimit, maxDownloadsPerWindow]
        · rw [ih2.1,
            show (fun i => decide (st.rateLimitCount + 1 + i < 3)) =
                ((fun i => decide (st.rateLimitCount + i < 3)) ∘ Nat.succ) from
              funext fun i => by
                simp only [Function.comp_apply]
                exact decide_eq_decide.mpr (by omega)]
      · simp only [runAttempts, List.length_cons]
        rw [ih2.2.1]; omega
      · simp only [runAttempts, List.length_cons]
        rw [ih2.2.2.1,
          show rest.length - (3 - (st.rateLimitCount + 1)) =
              rest.length + 1 - (3 - st.rateLimitCount) from by omega]
      · simp only [runStates, List.all_cons, Bool.and_eq_true, decide_eq_true_eq]
        exact ⟨hc, ih2.2.2.2⟩
    · simp only [if_neg hlt] at step
      have hc3 : st.rateLimitCount = 3 := by omega
      have ih2 := ih (initiateDownload cfg st src o).2
        (by rw [step.2.1]; exact hs) hall2.2 (by rw [step.2.2.1]; exact hc)
      rw [step.2.2.1, step.2.2.2.1] at ih2
      refine ⟨?_, ?_, ?_, ?_⟩
      · simp only [runAttempts, List.length_cons, List.range_succ_eq_map,
          List.map_cons, List.map_map]
        refine List.cons_eq_cons.mpr ⟨?_, ?_⟩
        · rw [step.1]; simp [checkRateLimit, maxDownloadsPerWindow]
        · rw [ih2.1]
          refine List.map_congr_left fun i _ => ?_
          simp only [Function.comp_apply]
          exact decide_eq_decide.mpr (by omega)
      · simp only [runAttempts, List.length_cons]
        rw [ih2.2.1]; omega
      · simp only [runAttempts, List.length_cons]
        rw [ih2.2.2.1, hc3]
        simp [List.replicate_succ, List.append_assoc]
      · simp only [runStates, List.all_cons, Bool.and_eq_true, decide_eq_true_eq]
        exact ⟨hc, ih2.2.2.2⟩

/-- C2 (amended): a bot score strictly above 50 blocks the attempt regardless
of the rate-limiter state: `initiateDownload` returns `false` having only
shown the security advisory, so the `preparing` state is never entered, no
token is issued, and the in-memory counter and the persisted
`{count, windowStart}` record are untouched. -/
theorem initiateDownload_blocks_highBotScore (cfg : VentureConfig) (st : MState)
    (source : String) (o : AttemptCtx) (h : 50 < st.botScore) :
    initiateDownload cfg st source o = (false, showMessage st securityBlockAdvisory)
    ∧ (initiateDownload cfg st source o).2.uiHistory = st.uiHistory
    ∧ (initiateDownload cfg st source o).2.tokens = st.tokens
    ∧ (initiateDownload cfg st source o).2.rateLimitCount = st.rateLimitCount
    ∧ (initiateDownload cfg st source o).2.storage = st.storage := by
  have he : initiateDownload cfg st source o =
      (false, showMessage st securityBlockAdvisory) := by
    simp [initiateDownload, initiateDownloadBody, passesSecurityChecks, h]
  exact ⟨he, by rw [he]; simp [showMessage], by rw [he]; simp [showMessage],
    by rw [he]; simp [showMessage], by rw [he]; simp [showMessage]⟩

/-- C2 (witness): concrete blocked attempt at bot score 60. -/
theorem initiateDownload_blocks_highBotScore_witness :
    initiateDownload cfgAW (newManagerState 60 none 0) "primary_cta" (goodCtx 1000) =
      (false, showMessage (newManagerState 60 none 0) securityBlockAdvisory) :=
  (initiateDownload_blocks_highBotScore cfgAW (newManagerState 60 none 0)
    "primary_cta" (goodCtx 1000) (by decide)).1

/-- C2 (counterexample): at a bot score of exactly 50 the attempt is not
blocked — it is admitted, enters `preparing`, issues a token and ends in
`success` — refuting the claim that a score at or above 50 blocks. -/
theorem initiateDownload_score50_admitted :
    (initiateDownload cfgAW (newManagerState 50 none 0) "primary_cta"
        (goodCtx 1000)).1 = true
    ∧ (initiateDownload cfgAW (newManagerState 50 none 0) "primary_cta"
        (goodCtx 1000)).2.uiHistory = [UIState.preparing, UIState.success]
    ∧ (initiateDownload cfgAW (newManagerState 50 none 0) "primary_cta"
        (goodCtx 1000)).2.tokens ≠ []
    ∧ (initiateDownload cfgAW (newManagerState 50 none 0) "primary_cta"
        (goodCtx 1000)).2.storage = some ⟨1, 1000⟩ := by
  refine ⟨by decide, by decide, by decide, by decide⟩

/-- C3 (counterexample): running the spec's scenario in one page session —
three admitted clicks at seconds 1, 5, 10, a rejected fourth at second 15 —
the new click at second 61 is rejected and the persisted count stays 3 (the
rate-limit check performs no normalization), refuting the claimed admission
with a count reset to 1. -/
theorem checkRateLimit_no_reset_in_session :
    (runAttempts cfgAW (newManagerState 10 none 0) scenarioAttempts).1 =
      [true, true, true, false, false]
    ∧ (runAttempts cfgAW (newManagerState 10 none 0) scenarioAttempts).2.rateLimitCount = 3
    ∧ (runAttempts cfgAW (newManagerState 10 none 0) scenarioAttempts).2.storage = some ⟨3, 10000⟩ := by
  refine ⟨by decide, by decide, by decide⟩

/-- C3 (amended): window normalization (count reset to 0, window-start set to
now when `now − windowStart` exceeds 60 000 ms) happens only in
`initRateLimiting` at page load; `checkRateLimit` merely compares the
in-memory count with 3. Hence in the scenario the click at second 61 of the
same page session is rejected with the count still 3, and a click is admitted
again (count becoming 1) only after a page reload later than 60 s past the
last accepted attempt, which is what resets the window. -/
theorem rateLimit_normalize_only_on_load :
    (runAttempts cfgAW (newManagerState 10 none 0) scenarioAttempts).1 =
      [true, true, true, false, false]
    ∧ (runAttempts cfgAW (newManagerState 10 none 0) scenarioAttempts).2.storage = some ⟨3, 10000⟩
    ∧ checkRateLimit 3 = false
    ∧ initRateLimiting (some ⟨3, 10000⟩) 71000 = (0, some ⟨0, 71000⟩)
    ∧ (initiateDownload cfgAW (newManagerState 10 (some ⟨3, 10000⟩) 71000)
        "primary_cta" (goodCtx 71000)).1 = true
    ∧ (initiateDownload cfgAW (newManagerState 10 (some ⟨3, 10000⟩) 71000)
        "primary_cta" (goodCtx 71000)).2.storage = some ⟨1, 71000⟩ := by
  refine ⟨by decide, by decide, by decide, by decide, by decide, by decide⟩

/-- C4: from a fresh window (count 0), for any sequence of attempts with bot
score below 50, honeypot empty, environment supported and downloads
verifying, the first three attempts are admitted and every later attempt is
rejected; each rejection appends the rate-limit advisory; the final counter is
`min n 3`; and no reached state ever holds a counter above the per-window
maximum of 3. -/
theorem rateLimit_sequence (cfg : VentureConfig) (st : MState)
    (os : List (String × AttemptCtx)) (hs : st.botScore < 50)
    (hall : (os.all fun p => admissibleCtx p.2) = true)
    (hc : st.rateLimitCount = 0) :
    (runAttempts cfg st os).1 = (List.range os.length).map (fun i => decide (i < 3))
    ∧ (runAttempts cfg st os).2.rateLimitCount = min os.length 3
    ∧ (runAttempts cfg st os).2.advisories =
        st.advisories ++ List.replicate (os.length - 3) rateLimitAdvisory
    ∧ ((runStates cfg st os).all fun s2 =>
        decide (s2.rateLimitCount ≤ maxDownloadsPerWindow)) = true := by
  have base := runAttempts_rateLimit cfg os st (by omega) hall (by omega)
  rw [hc] at base
  refine ⟨?_, ?_, ?_, ?_⟩
  · rw [base.1]
    exact List.map_congr_left fun i _ => decide_eq_decide.mpr (by omega)
  · rw [base.2.1]; omega
  · rw [base.2.2.1]
  · exact base.2.2.2

/-- C4 (witness): the concrete five-click scenario satisfies the hypotheses
and the conclusion. -/
theorem rateLimit_sequence_witness :
    (runAttempts cfgAW (newManagerState 10 none 0) scenarioAttempts).1 =
      (List.range scenarioAttempts.length).map (fun i => decide (i < 3))
    ∧ (runAttempts cfgAW (newManagerState 10 none 0) scenarioAttempts).2.rateLimitCount =
        min scenarioAttempts.length 3
    ∧ (runAttempts cfgAW (newManagerState 10 none 0) scenarioAttempts).2.advisories =
        (newManagerState 10 none 0).advisories ++
          List.replicate (scenarioAttempts.length - 3) rateLimitAdvisory
    ∧ ((runStates cfgAW (newManagerState 10 none 0) scenarioAttempts).all fun s2 =>
        decide (s2.rateLimitCount ≤ maxDownloadsPerWindow)) = true :=
  rateLimit_sequence cfgAW (newManagerState 10 none 0) scenarioAttempts
    (by decide) (by decide) (by decide)

/-- C5 (amended): recording an accepted attempt increments the persisted count
by exactly one but also rewrites the persisted window-start to the time of the
attempt: the stored record after an admitted attempt is
`{count + 1, windowStart: now}`, re-anchoring the window at every accepted
attempt instead of leaving the start fixed. -/
theorem recordAttempt_increments_and_reanchors (cfg : VentureConfig) (st : MState)
    (source : String) (o : AttemptCtx) (hs : st.botScore ≤ 50)
    (ha : admissibleCtx o = true) (hc : st.rateLimitCount < 3) :
    (initiateDownload cfg st source o).1 = true
    ∧ (initiateDownload cfg st source o).2.rateLimitCount = st.rateLimitCount + 1
    ∧ (initiateDownload cfg st source o).2.storage =
        some ⟨st.rateLimitCount + 1, o.now⟩ := by
  have step := initiateDownload_step cfg st source o hs ha
  refine ⟨?_, ?_, ?_⟩
  · rw [step.1]; simp [checkRateLimit, maxDownloadsPerWindow, hc]
  · rw [step.2.2.1, if_pos hc]
  · rw [step.2.2.2.2.1, if_pos hc]

/-- C5 (witness): concrete admitted attempt from count 2. -/
theorem recordAttempt_increments_and_reanchors_witness :
    (initiateDownload cfgAW (newManagerState 10 (some ⟨2, 5⟩) 100) "primary_cta"
        (goodCtx 50000)).1 = true
    ∧ (initiateDownload cfgAW (newManagerState 10 (some ⟨2, 5⟩) 100) "primary_cta"
        (goodCtx 50000)).2.rateLimitCount =
          (newManagerState 10 (some ⟨2, 5⟩) 100).rateLimitCount + 1
    ∧ (initiateDownload cfgAW (newManagerState 10 (some ⟨2, 5⟩) 100) "primary_cta"
        (goodCtx 50000)).2.storage =
          some ⟨(newManagerState 10 (some ⟨2, 5⟩) 100).rateLimitCount + 1,
            (goodCtx 50000).now⟩ :=
  recordAttempt_increments_and_reanchors cfgAW (newManagerState 10 (some ⟨2, 5⟩) 100)
    "primary_cta" (goodCtx 50000) (by decide) (by decide) (by decide)

/-- C5 (counterexample): with a persisted window `{count: 2, windowStart: 5}`,
recording the accepted attempt at time 50000 persists
`{count: 3, windowStart: 50000}`, not `{count: 3, windowStart: 5}` — the
window-start is not left unchanged by `updateRateLimit`. -/
theorem updateRateLimit_changes_windowStart :
    (initiateDownload cfgAW (newManagerState 10 (some ⟨2, 5⟩) 100) "secondary"
        (goodCtx 50000)).2.storage = some ⟨3, 50000⟩
    ∧ (initiateDownload cfgAW (newManagerState 10 (some ⟨2, 5⟩) 100) "secondary"
        (goodCtx 50000)).2.storage ≠ some ⟨3, 5⟩ := by
  refine ⟨by decide, by decide⟩

/-- C6 (amended): an attempt blocked by a security gate (bot score or
honeypot) surfaces only the user-visible advisory: no telemetry event of any
kind — in particular no `security_event` — is emitted; the
`reportSecurityEvent` routine exists in the source but is never invoked on the
gate path. -/
theorem securityBlock_emits_no_event (cfg : VentureConfig) (st : MState)
    (source : String) (o : AttemptCtx) (r : BlockReason)
    (h : passesSecurityChecks st.botScore o.env = some r) :
    initiateDownload cfg st source o = (false, showMessage st securityBlockAdvisory)
    ∧ (initiateDownload cfg st source o).2.events = st.events
    ∧ (initiateDownload cfg st source o).2.advisories =
        st.advisories ++ [securityBlockAdvisory] := by
  have he : initiateDownload cfg st source o =
      (false, showMessage st securityBlockAdvisory) := by
    simp [initiateDownload, initiateDownloadBody, h]
  exact ⟨he, by rw [he]; simp [showMessage], by rw [he]; simp [showMessage]⟩

/-- C6 (witness): concrete blocked attempt (bot score 60). -/
theorem securityBlock_emits_no_event_witness :
    initiateDownload cfgAW (newManagerState 60 none 5) "secondary" (goodCtx 2000) =
      (false, showMessage (newManagerState 60 none 5) securityBlockAdvisory)
    ∧ (initiateDownload cfgAW (newManagerState 60 none 5) "secondary"
        (goodCtx 2000)).2.events = (newManagerState 60 none 5).events
    ∧ (initiateDownload cfgAW (newManagerState 60 none 5) "secondary"
        (goodCtx 2000)).2.advisories =
          (newManagerState 60 none 5).advisories ++ [securityBlockAdvisory] :=
  securityBlock_emits_no_event cfgAW (newManagerState 60 none 5) "secondary"
    (goodCtx 2000) BlockReason.highBotScore (by decide)

/-- C6 (counterexample): a security-blocked attempt emits no telemetry event
at all — the dispatcher receives nothing, and in particular no event of the
`security_event` kind built by `reportSecurityEvent` — refuting the claim that
blocked attempts raise a security event through the dispatcher. -/
theorem securityBlock_counterexample :
    (initiateDownload cfgAW (newManagerState 60 none 0) "secondary"
        (goodCtx 1000)).2.events = []
    ∧ ((initiateDownload cfgAW (newManagerState 60 none 0) "secondary"
        (goodCtx 1000)).2.events.any fun ev => ev.1.kind == "security_event") = false
    ∧ (reportSecurityEvent (newManagerState 60 none 0) goodSinks
        "bot_detected").events ≠ [] := by
  refine ⟨by decide, by decide, by decide⟩

/-- C7 (amended): the environment-capability check runs inside
`passesSecurityChecks` after the bot-score gate and before the honeypot and
rate-limit checks: whenever the bot score is at most 50 and `fetch` or
`Promise` is missing, the attempt is rejected with the unsupported-environment
reason and never starts — no `preparing` transition, no token, no rate-limit
read or write — while a bot score above 50 is evaluated first. (The standalone
`validateDownloadEnvironment` helper is exported but never invoked.) -/
theorem environment_gate_order (cfg : VentureConfig) (st : MState)
    (source : String) (o : AttemptCtx) (hs : st.botScore ≤ 50)
    (he : o.env.fetchAvail = false ∨ o.env.promiseAvail = false) :
    passesSecurityChecks st.botScore o.env = some BlockReason.unsupportedEnv
    ∧ initiateDownload cfg st source o = (false, showMessage st securityBlockAdvisory)
    ∧ (initiateDownload cfg st source o).2.uiHistory = st.uiHistory
    ∧ (initiateDownload cfg st source o).2.tokens = st.tokens
    ∧ (initiateDownload cfg st source o).2.storage = st.storage
    ∧ validateDownloadEnvironment o.env = false := by
  have hlt : ¬ (50 < st.botScore) := by omega
  have hp : passesSecurityChecks st.botScore o.env =
      some BlockReason.unsupportedEnv := by
    rcases he with h | h <;> simp [passesSecurityChecks, hlt, h]
  have heq : initiateDownload cfg st source o =
      (false, showMessage st securityBlockAdvisory) := by
    simp [initiateDownload, initiateDownloadBody, hp]
  refine ⟨hp, heq, by rw [heq]; simp [showMessage], by rw [heq]; simp [showMessage],
    by rw [heq]; simp [showMessage], ?_⟩
  rcases he with h | h <;> simp [validateDownloadEnvironment, h]

/-- C7 (witness): concrete attempt in an environment missing `fetch`. -/
theorem environment_gate_order_witness :
    passesSecurityChecks (newManagerState 10 none 0).botScore
        { goodCtx 1000 with env := noFetchEnv }.env =
      some BlockReason.unsupportedEnv
    ∧ initiateDownload cfgAW (newManagerState 10 none 0) "primary_cta"
        { goodCtx 1000 with env := noFetchEnv } =
      (false, showMessage (newManagerState 10 none 0) securityBlockAdvisory)
    ∧ (initiateDownload cfgAW (newManagerState 10 none 0) "primary_cta"
        { goodCtx 1000 with env := noFetchEnv }).2.uiHistory =
      (newManagerState 10 none 0).uiHistory
    ∧ (initiateDownload cfgAW (newManagerState 10 none 0) "primary_cta"
        { goodCtx 1000 with env := noFetchEnv }).2.tokens =
      (newManagerState 10 none 0).tokens
    ∧ (initiateDownload cfgAW (newManagerState 10 none 0) "primary_cta"
        { goodCtx 1000 with env := noFetchEnv }).2.storage =
      (newManagerState 10 none 0).storage
    ∧ validateDownloadEnvironment { goodCtx 1000 with env := noFetchEnv }.env = false :=
  environment_gate_order cfgAW (newManagerState 10 none 0) "primary_cta"
    { goodCtx 1000 with env := noFetchEnv } (by decide) (Or.inl (by decide))

/-- C7 (counterexample): in an environment missing `fetch` but with a bot
score of 60, the gate that fires is the bot-score gate, not the environment
gate — the environment check is not evaluated before every other gate. -/
theorem environment_not_checked_first :
    noFetchEnv.fetchAvail = false
    ∧ passesSecurityChecks 60 noFetchEnv = some BlockReason.highBotScore
    ∧ passesSecurityChecks 60 noFetchEnv ≠ some BlockReason.unsupportedEnv := by
  refine ⟨by decide, by decide, by decide⟩

/-- C8 (amended): a sink failure is caught and logged at the dispatcher
boundary and is never rethrown to the caller of `sendAnalytics`, but the three
sinks are awaited sequentially inside a single guard: when the Cloudflare sink
(the first attempted) throws, the Google Analytics call and the custom
endpoint are not attempted for that event. -/
theorem sendAnalytics_failure_not_independent (b : SinkBehavior)
    (h1 : b.cloudflareHook = true) (h2 : b.cloudflareThrows = true) :
    sendAnalytics b = ([⟨SinkId.cloudflare, "", false⟩], true)
    ∧ ((sendAnalytics b).1.any fun d =>
        d.sink == SinkId.googleAnalytics || d.sink == SinkId.customFetch ||
          d.sink == SinkId.customBeacon) = false := by
  have he : sendAnalytics b = ([⟨SinkId.cloudflare, "", false⟩], true) := by
    simp [sendAnalytics, sendToCloudflare, h1, h2]
  exact ⟨he, by rw [he]; decide⟩

/-- C8 (witness): concrete dispatch with a throwing Cloudflare hook. -/
theorem sendAnalytics_failure_not_independent_witness :
    sendAnalytics throwingCloudflareSinks = ([⟨SinkId.cloudflare, "", false⟩], true)
    ∧ ((sendAnalytics throwingCloudflareSinks).1.any fun d =>
        d.sink == SinkId.googleAnalytics || d.sink == SinkId.customFetch ||
          d.sink == SinkId.customBeacon) = false :=
  sendAnalytics_failure_not_independent throwingCloudflareSinks rfl rfl

/-- C8 (counterexample): with the Cloudflare hook present and throwing, the
Google Analytics hook installed, and the custom endpoint healthy, the only
delivery attempted is the failed Cloudflare one — the other sinks never
receive the event — refuting per-sink failure independence. -/
theorem sendAnalytics_counterexample :
    throwingCloudflareSinks.gtagHook = true
    ∧ (sendAnalytics throwingCloudflareSinks).1 = [⟨SinkId.cloudflare, "", false⟩]
    ∧ ((sendAnalytics throwingCloudflareSinks).1.any fun d =>
        d.sink == SinkId.customFetch) = false := by
  refine ⟨by decide, by decide, by decide⟩

/-- C9: telemetry transmission failure never blocks the download flow: when
the first-party `fetch` rejects, `sendToCustomEndpoint` falls back to a
best-effort beacon on the same `/api/analytics` path, and an admitted attempt
with an always-rejecting primary endpoint still returns `true` and reaches the
`success` state. -/
theorem telemetryFailure_isolated (cfg : VentureConfig) (st : MState)
    (source : String) (o : AttemptCtx) (hs : st.botScore ≤ 50)
    (ha : admissibleCtx o = true) (hc : st.rateLimitCount < 3)
    (hrej : o.sinks.fetchRejects = true) (hb : o.sinks.beaconAvail = true) :
    sendToCustomEndpoint o.sinks =
      [⟨SinkId.customFetch, apiAnalyticsPath, false⟩,
       ⟨SinkId.customBeacon, apiAnalyticsPath, true⟩]
    ∧ (initiateDownload cfg st source o).1 = true
    ∧ (initiateDownload cfg st source o).2.uiState = UIState.success := by
  have step := initiateDownload_step cfg st source o hs ha
  refine ⟨by simp [sendToCustomEndpoint, hrej, hb], ?_, ?_⟩
  · rw [step.1]; simp [checkRateLimit, maxDownloadsPerWindow, hc]
  · rw [step.2.2.2.2.2, if_pos hc]

/-- C9 (witness): concrete admitted click with the rejecting endpoint. -/
theorem telemetryFailure_isolated_witness :
    sendToCustomEndpoint { goodCtx 1000 with sinks := rejectingEndpointSinks }.sinks =
      [⟨SinkId.customFetch, apiAnalyticsPath, false⟩,
       ⟨SinkId.customBeacon, apiAnalyticsPath, true⟩]
    ∧ (initiateDownload cfgAW (newManagerState 10 none 0) "primary_cta"
        { goodCtx 1000 with sinks := rejectingEndpointSinks }).1 = true
    ∧ (initiateDownload cfgAW (newManagerState 10 none 0) "primary_cta"
        { goodCtx 1000 with sinks := rejectingEndpointSinks }).2.uiState =
      UIState.success :=
  telemetryFailure_isolated cfgAW (newManagerState 10 none 0) "primary_cta"
    { goodCtx 1000 with sinks := rejectingEndpointSinks } (by decide) (by decide)
    (by decide) (by decide) (by decide)

/-- C10: from the idle state, `initiateDownload` is total toward its caller —
the internal `catch` absorbs the verification exception — and it resolves to
`true` exactly when every gate passes and the verification probe succeeds,
which is exactly when the attempt ends in the `success` state; it resolves to
`false` exactly when the controls end `idle` (a gate blocked the attempt) or
`error` (the download or its verification failed). -/
theorem initiateDownload_total (cfg : VentureConfig) (st : MState)
    (source : String) (o : AttemptCtx) (h : st.uiState = UIState.idle) :
    ((initiateDownload cfg st source o).1 = true ↔
      (passesSecurityChecks st.botScore o.env = none ∧
        checkRateLimit st.rateLimitCount = true ∧ o.headOk = true))
    ∧ ((initiateDownload cfg st source o).1 = true ↔
        (initiateDownload cfg st source o).2.uiState = UIState.success)
    ∧ ((initiateDownload cfg st source o).1 = false ↔
        ((initiateDownload cfg st source o).2.uiState = UIState.idle ∨
          (initiateDownload cfg st source o).2.uiState = UIState.error)) := by
  rcases hp : passesSecurityChecks st.botScore o.env with _ | r
  · cases hcl : checkRateLimit st.rateLimitCount
    · simp [initiateDownload, initiateDownloadBody, hp, hcl, showMessage, h]
    · cases hh : o.headOk
      · simp [initiateDownload, initiateDownloadBody, hp, hcl, verifyDownloadStart,
          hh, updateDownloadUI, trackDownload, updateConversionMetrics, emitEvent]
      · simp [initiateDownload, initiateDownloadBody, hp, hcl, verifyDownloadStart,
          hh, updateDownloadUI, trackDownload, updateConversionMetrics, emitEvent]
  · simp [initiateDownload, initiateDownloadBody, hp, showMessage, h]

/-- C10 (witness): concrete admitted attempt from the idle state. -/
theorem initiateDownload_total_witness :
    ((initiateDownload cfgAW (newManagerState 10 none 0) "primary_cta"
        (goodCtx 1000)).1 = true ↔
      (passesSecurityChecks (newManagerState 10 none 0).botScore (goodCtx 1000).env =
          none ∧
        checkRateLimit (newManagerState 10 none 0).rateLimitCount = true ∧
        (goodCtx 1000).headOk = true))
    ∧ ((initiateDownload cfgAW (newManagerState 10 none 0) "primary_cta"
        (goodCtx 1000)).1 = true ↔
        (initiateDownload cfgAW (newManagerState 10 none 0) "primary_cta"
          (goodCtx 1000)).2.uiState = UIState.success)
    ∧ ((initiateDownload cfgAW (newManagerState 10 none 0) "primary_cta"
        (goodCtx 1000)).1 = false ↔
        ((initiateDownload cfgAW (newManagerState 10 none 0) "primary_cta"
          (goodCtx 1000)).2.uiState = UIState.idle ∨
          (initiateDownload cfgAW (newManagerState 10 none 0) "primary_cta"
            (goodCtx 1000)).2.uiState = UIState.error)) :=
  initiateDownload_total cfgAW (newManagerState 10 none 0) "primary_cta"
    (goodCtx 1000) (by decide)
